import Mathlib

/-!
Verification of the SMRT Laundry client-side orchestration layer.

The definitions below are shallow embeddings of the TypeScript source:
- the conversational session controller (`send` in app/src/screens/ChatScreen.tsx),
- the transport client (`get` and `post` in app/src/hooks/useApi.ts),
- the paginated search controller (PricesScreen),
- the report retrieval controller (ReportsScreen),
- the currency formatter (app/src/utils/formatters.ts).

External effects (the fetch call, JSON decoding, the JavaScript Number and
Intl primitives) are represented by outcome parameters: the embedding is a
function of the controller state and of the outcome the environment chose,
so theorems quantify over every possible response of the remote service.
-/

/-! ## Conversational session controller (ChatScreen.send) -/

/-- Message role, from the `Msg` type in ChatScreen.tsx. -/
inductive Role where
  | user
  | assistant
deriving DecidableEq, Repr

/-- A chat message: `{ id: string; role: "user" | "assistant"; text: string }`. -/
structure Msg where
  id : String
  role : Role
  text : String
deriving DecidableEq, Repr

/-- The state owned by ChatScreen: the ordered message log, the input buffer
and the busy flag. -/
structure ChatState where
  messages : List Msg
  input : String
  busy : Bool
deriving DecidableEq, Repr

/-- How the POST /chat request resolves, as discriminated by `send`:
`okRows` is a decoded response with `res.ok` (each row is represented by its
pretty-printed rendering, standing for `JSON.stringify(row, null, 2)`);
`structuredError` is a decoded response with a non-success status, carrying
the optional fields of `json.detail`; `networkFail` is a thrown exception
(fetch failure or undecodable payload) carrying `e.message` when present. -/
inductive ChatOutcome where
  | okRows (answer : String) (sql : String) (rows : List String)
  | structuredError (message : Option String) (issues : Option (List String))
      (sql : Option String)
  | networkFail (excMsg : Option String)
deriving DecidableEq, Repr

/-- The `.trim()` calls of the source, embedded as an executable function on
the character list: drop whitespace from both ends. -/
def jsTrim (s : String) : String :=
  ⟨((s.toList.dropWhile Char.isWhitespace).reverse.dropWhile
      Char.isWhitespace).reverse⟩

/-- JavaScript truthiness fallback `a || b` for an optional string:
`none` and the empty string are falsy. -/
def jsOrElse (a : Option String) (b : String) : String :=
  match a with
  | some s => if s = "" then b else s
  | none => b

/-- The text of the assistant message that `send` appends, one case per
branch of the source: success with rows, success without rows, structured
error (`issues` joined by newlines when it is an array, message falling back
to "Failed to query", `sql` defaulting to the empty string under `?? ""`),
and the catch branch (`e?.message || "Network error"`). -/
def assistantText : ChatOutcome → String
  | .okRows answer sql rows =>
      match rows with
      | [] => "ℹ️ " ++ answer ++ "\n\nSQL:\n" ++ sql
      | r0 :: _ =>
          "✅ " ++ answer ++ "\n\nSQL:\n" ++ sql ++ "\n\nFirst row:\n" ++ r0
  | .structuredError message issues sql =>
      let issuesStr := match issues with
        | some l => String.intercalate "\n" l
        | none => ""
      let errMsg :=
        jsOrElse message "Failed to query" ++
          (if issuesStr = "" then "" else "\n" ++ issuesStr)
      "⚠️ " ++ errMsg ++ "\n\nSQL:\n" ++ sql.getD ""
  | .networkFail excMsg => "⚠️ " ++ jsOrElse excMsg "Network error"

/-- The guard at the top of `send`: the submission is accepted when the
trimmed text is non-empty and the controller is not busy. -/
def sendAccepts (s : ChatState) (text : String) : Bool :=
  !(jsTrim text = "") && !s.busy

/-- The synchronous part of an accepted `send`: append the user message,
clear the input, raise the busy flag. `uid` stands for the generated id
`String(Date.now())`. -/
def sendStart (s : ChatState) (text : String) (uid : String) : ChatState :=
  { s with
    messages := s.messages ++ [⟨uid, .user, jsTrim text⟩]
    input := ""
    busy := true }

/-- The resolution part of `send`: append the assistant message for the
outcome and (in the finally block) lower the busy flag. -/
def sendFinish (s : ChatState) (aid : String) (out : ChatOutcome) : ChatState :=
  { s with
    messages := s.messages ++ [⟨aid, .assistant, assistantText out⟩]
    busy := false }

/-- The whole `send(text)` operation: a rejected submission leaves the state
unchanged; an accepted one runs `sendStart` then, once the request resolves
with `out`, `sendFinish`. -/
def send (s : ChatState) (text : String) (uid aid : String)
    (out : ChatOutcome) : ChatState :=
  if sendAccepts s text then sendFinish (sendStart s text uid) aid out else s

/-- The body `{ message: trimmed, limit: 50 }` of the POST /chat request. -/
structure ChatRequest where
  message : String
  limit : Int
deriving DecidableEq, Repr

/-- The requests issued by one call to `send`: exactly one when the guard
passes, none otherwise. -/
def sendRequests (s : ChatState) (text : String) : List ChatRequest :=
  if sendAccepts s text then [⟨jsTrim text, 50⟩] else []

/-- Substring test used to state containment properties of rendered
messages. -/
def strContainsSub (s pat : String) : Bool :=
  s.toList.tails.any (fun t => pat.toList.isPrefixOf t)

example :
    assistantText (.structuredError (some "unknown table")
      (some ["table X not allowed"]) none) =
      "⚠️ unknown table\ntable X not allowed\n\nSQL:\n" := by decide

example : strContainsSub "⚠️ Failed to fetch" "Failed to fetch" = true := by decide

example :
    send ⟨[], "x", false⟩ "  hi " "u1" "a1" (.okRows "ans" "q" []) =
      ⟨[⟨"u1", .user, "hi"⟩, ⟨"a1", .assistant, "ℹ️ ans\n\nSQL:\nq"⟩], "", false⟩ := by
  decide

/-! ## Transport client (useApi.get and useApi.post)

Each call runs `setLoading(true); setError(null)`, awaits the fetch and the
JSON decode, throws on a non-success status, and in the catch branch stores
`e.message || "Request failed"` before re-throwing; a finally block runs
`setLoading(false)` on every exit path. We embed a call as the trace of
`setLoading` and `setError` events it performs, plus its returned value. -/

/-- One state-setter invocation inside a transport-client call. -/
inductive ApiEvent where
  | setLoading (b : Bool)
  | setError (e : Option String)
deriving DecidableEq, Repr

/-- How a transport-client call resolves: `ok` is a decoded payload with a
success status; `httpError` is a decoded payload with a non-success status,
carrying `data?.detail?.message` and the `JSON.stringify(data)` rendering;
`netFail` is an exception thrown by the fetch or by the JSON decode,
carrying its `e.message` text. -/
inductive FetchOutcome (T : Type) where
  | ok (data : T)
  | httpError (detailMessage : Option String) (rawJson : String)
  | netFail (excMsg : String)

/-- The message of the exception observed by the catch branch: on a
non-success status the code throws
`new Error(data?.detail?.message || JSON.stringify(data))`; a network or
decode failure carries its own message. On `ok` nothing is thrown. -/
def thrownMessage {T : Type} : FetchOutcome T → String
  | .ok _ => ""
  | .httpError dm raw => jsOrElse dm raw
  | .netFail m => m

/-- The `setError` event of the catch branch: `setError(e.message || "Request
failed")`, absent on success. -/
def catchEvents {T : Type} : FetchOutcome T → List ApiEvent
  | .ok _ => []
  | out => [.setError (some (jsOrElse (some (thrownMessage out)) "Request failed"))]

/-- The event trace of one `post` call: flag up, error cleared, the catch
branch on failure, flag down in the finally block. -/
def postTrace {T : Type} (out : FetchOutcome T) : List ApiEvent :=
  [.setLoading true, .setError none] ++ catchEvents out ++ [.setLoading false]

/-- The event trace of one `get` call: the source duplicates the same
structure as `post` (without a request body). -/
def getTrace {T : Type} (out : FetchOutcome T) : List ApiEvent :=
  [.setLoading true, .setError none] ++ catchEvents out ++ [.setLoading false]

/-- The value a call returns to its caller: the decoded payload on success,
nothing when the call threw. -/
def callResult {T : Type} : FetchOutcome T → Option T
  | .ok d => some d
  | _ => none

/-- The `loading` and `error` state cells of the hook. -/
structure ApiState where
  loading : Bool
  error : Option String
deriving DecidableEq, Repr

/-- Apply one state-setter event. -/
def applyEvent (st : ApiState) : ApiEvent → ApiState
  | .setLoading b => { st with loading := b }
  | .setError e => { st with error := e }

/-- Run a trace of state-setter events from a given hook state. -/
def runTrace (st : ApiState) (events : List ApiEvent) : ApiState :=
  events.foldl applyEvent st

/-- Just the `setLoading` arguments of a trace, in order. -/
def loadingEvents (events : List ApiEvent) : List Bool :=
  events.filterMap (fun e => match e with
    | .setLoading b => some b
    | _ => none)

/-- The hook error state after a call: `null` on success, otherwise the
caught message with the "Request failed" fallback. -/
def finalError {T : Type} (out : FetchOutcome T) : Option String :=
  match out with
  | .ok _ => none
  | _ => some (jsOrElse (some (thrownMessage out)) "Request failed")

theorem finalError_eq_trace {T : Type} (st : ApiState) (out : FetchOutcome T) :
    (runTrace st (getTrace out)).error = finalError out := by
  cases out <;> rfl

/-! ## Report retrieval controller (ReportsScreen.load) -/

/-- The `summary` object of a report payload. -/
structure ReportSummary where
  orders : Int
  units : Int
  revenue : ℚ
deriving DecidableEq, Repr

/-- One point of the report timeseries. -/
structure TimePoint where
  day : String
  revenue : ℚ
deriving DecidableEq, Repr

/-- The `sql` object of a report payload. -/
structure ReportSql where
  summary : String
  timeseries : String
deriving DecidableEq, Repr

/-- A decoded report payload, replaced wholesale on success. -/
structure Report where
  summary : ReportSummary
  timeseries : List TimePoint
  sql : ReportSql
deriving DecidableEq, Repr

/-- The state visible on the reports screen: the last successful `Report`
snapshot (none before the first success) and the hook error cell it
renders. -/
structure ReportState where
  report : Option Report
  lastError : Option String
deriving DecidableEq, Repr

/-- `load` in ReportsScreen: `setReport(data)` when `get` returns, nothing in
the catch branch (the hook already stored the error); the error cell ends as
the trace of the `get` call leaves it. -/
def loadReport (s : ReportState) (out : FetchOutcome Report) : ReportState :=
  match callResult out with
  | some r => { report := some r, lastError := finalError out }
  | none => { s with lastError := finalError out }

/-! ## Paginated search controller (PricesScreen) -/

/-- One price-list row: `{ item_id: number; name: string; baseprice: number }`. -/
structure PriceRow where
  item_id : Int
  name : String
  baseprice : ℚ
deriving DecidableEq, Repr

/-- The state of PricesScreen: the search text buffer `q`, the 0-based page
index, the rows of the last completed load, and the reported total count. -/
structure SearchState where
  q : String
  page : Int
  data : List PriceRow
  total : Int
deriving DecidableEq, Repr

/-- The fixed page size, `const limit = 25`. -/
def pageLimit : Int := 25

/-- `Math.ceil(t / 25)` as integer arithmetic, so that states evaluate by
kernel reduction; `ceilDiv25_eq` below identifies it with the mathematical
ceiling of the exact quotient. -/
def ceilDiv25 (t : Int) : Int := -((-t) / 25)

theorem ceilDiv25_eq (t : Int) : ⌈(t : ℚ) / 25⌉ = ceilDiv25 t := by
  have h2 : (t : ℚ) / 25 = -(((-t : ℤ) : ℚ) / ((25 : ℕ) : ℚ)) := by
    push_cast; ring
  rw [ceilDiv25, h2, Int.ceil_neg, Rat.floor_intCast_div_natCast]
  norm_num

/-- `Math.max(1, Math.ceil(total / limit))`, the derived page count. -/
def pages (total : Int) : Int :=
  max 1 (ceilDiv25 total)

example : pages 100 = 4 := by decide
example : pages 0 = 1 := by decide
example : pages 3 = 1 := by decide

/-- `json.rows || []` and `json.row_count || 0` applied to a successful
response, and the catch branch clearing both cells: the effect of one load
resolution on the data and total cells. `success` carries the decoded rows
and the optional `row_count`; `failure` is any non-success status, decode
failure or network failure (they all reach the same catch). -/
inductive LoadOutcome where
  | success (rows : List PriceRow) (rowCount : Option Int)
  | failure
deriving DecidableEq

/-- Apply a resolved load to the screen state (`setData`/`setTotal`). -/
def applyLoad (s : SearchState) : LoadOutcome → SearchState
  | .success rows cnt => { s with data := rows, total := cnt.getD 0 }
  | .failure => { s with data := [], total := 0 }

/-- The query string built by `load`: `limit` and `offset` always, `q` only
when the trimmed term is non-empty, in insertion order. -/
def searchParams (q : String) (offset : Int) : List (String × String) :=
  [("limit", "25"), ("offset", toString offset)] ++
    (if jsTrim q = "" then [] else [("q", jsTrim q)])

/-- The request the `load` closure of the current render issues:
`offset = page * limit` with the page of that render. -/
def loadRequest (s : SearchState) : List (String × String) :=
  searchParams s.q (s.page * pageLimit)

/-- The requests issued by one press of the search button (or a submit of
the search field). The handler runs `setPage(0); load()`: the `load` closure
captured the pre-press `page`, so the immediate request carries
`offset = page * 25`; when the page actually changes (pre-press page not 0),
the `useEffect` keyed on `page` then fires a second `load` from the new
render, with `offset = 0`. When the page was already 0 the state update is a
no-op and the effect does not re-run, so only the immediate request goes
out. -/
def searchPressRequests (s : SearchState) : List (List (String × String)) :=
  [loadRequest s] ++
    (if s.page = 0 then [] else [searchParams s.q 0])

/-- The guard of the previous-page button: `disabled={page <= 0}`. -/
def prevEnabled (s : SearchState) : Bool := !(s.page ≤ 0)

/-- The guard of the next-page button: `disabled={(page + 1) >= pages}`. -/
def nextEnabled (s : SearchState) : Bool := !(s.page + 1 ≥ pages s.total)

/-- The page the previous-page button moves to: `Math.max(0, p - 1)`. -/
def prevTarget (s : SearchState) : Int := max 0 (s.page - 1)

/-- One observable transition of PricesScreen. Every rule pairs a user
event with the resolution of the load it triggers (the `useEffect` keyed on
`page` reloads after every page change; the mount effect is `loadResolves`,
which also covers a load issued earlier resolving against the current
state). `searchPressFar` is a press of the search button from a non-zero
page: the stale-closure request and the effect request both resolve, in
order. -/
inductive SStep : SearchState → SearchState → Prop
  | setTerm (s : SearchState) (t : String) : SStep s { s with q := t }
  | loadResolves (s : SearchState) (o : LoadOutcome) : SStep s (applyLoad s o)
  | searchPress (s : SearchState) (o : LoadOutcome) (h : s.page = 0) :
      SStep s (applyLoad { s with page := 0 } o)
  | searchPressFar (s : SearchState) (o₁ o₂ : LoadOutcome) (h : s.page ≠ 0) :
      SStep s (applyLoad (applyLoad { s with page := 0 } o₁) o₂)
  | prev (s : SearchState) (o : LoadOutcome) (h : prevEnabled s = true) :
      SStep s (applyLoad { s with page := prevTarget s } o)
  | next (s : SearchState) (o : LoadOutcome) (h : nextEnabled s = true) :
      SStep s (applyLoad { s with page := s.page + 1 } o)

/-- The initial PricesScreen state: empty term, page 0, no rows, total 0. -/
def searchInit : SearchState := ⟨"", 0, [], 0⟩

/-- States reachable from the initial state through observable
transitions. -/
inductive SReachable : SearchState → Prop
  | init : SReachable searchInit
  | step {s s' : SearchState} : SReachable s → SStep s s' → SReachable s'

/-! ## Currency formatter (formatters.fmtCurrency)

The JavaScript primitives the formatter calls are abstract parameters:
`numberParse` is `Number(s)` on a string (which may yield NaN), `intlFormat`
is `new Intl.NumberFormat(...).format` (`none` when the constructor or the
format call throws, which the source catches), and `strOfNum` is `String(v)`
on a number. -/

/-- A JavaScript number: NaN or an exact value. -/
inductive JsNum where
  | nan
  | val (x : ℚ)
deriving DecidableEq, Repr

/-- The argument type of `fmtCurrency`: `number | string | null | undefined`. -/
inductive FmtInput where
  | num (n : JsNum)
  | str (s : String)
  | nullv
  | undef
deriving DecidableEq, Repr

/-- `fmtCurrency` from app/src/utils/formatters.ts: the em-dash placeholder
for `null`, `undefined` and the empty string; `Number(n)` on a string input;
`String(n)` when the value is NaN (for a string input that is the string
itself); otherwise the locale-formatted value, falling back to `String(val)`
when formatting throws. -/
def fmtCurrency (numberParse : String → JsNum) (intlFormat : JsNum → Option String)
    (strOfNum : JsNum → String) : FmtInput → String
  | .nullv => "—"
  | .undef => "—"
  | .str s =>
      if s = "" then "—"
      else
        match numberParse s with
        | .nan => s
        | .val x => (intlFormat (.val x)).getD (strOfNum (.val x))
  | .num m =>
      match m with
      | .nan => strOfNum .nan
      | .val x => (intlFormat (.val x)).getD (strOfNum (.val x))

/-! ## Theorems -/

/-- C1: an accepted chat submission (non-empty trimmed text while not busy)
appends exactly one user message immediately (with the busy flag raised),
and after the request resolves — with rows, without rows, with a structured
failure, or with a network failure — exactly one assistant message after
it; the log grows append-only in submission order and the busy flag is back
to false. -/
theorem chat_submit_turn (s : ChatState) (text uid aid : String)
    (out : ChatOutcome) (h : sendAccepts s text = true) :
    (sendStart s text uid).messages
        = s.messages ++ [⟨uid, .user, jsTrim text⟩] ∧
    (sendStart s text uid).busy = true ∧
    (send s text uid aid out).messages
        = s.messages ++ [⟨uid, .user, jsTrim text⟩,
            ⟨aid, .assistant, assistantText out⟩] ∧
    (send s text uid aid out).busy = false := by
  simp [send, h, sendStart, sendFinish]

/-- Witness for `chat_submit_turn` at a concrete accepted submission. -/
theorem chat_submit_turn_witness :
    sendAccepts ⟨[], "", false⟩ "hi" = true ∧
    (send ⟨[], "", false⟩ "hi" "u" "a" (.okRows "ans" "q" ["r0"])).messages
        = [⟨"u", .user, jsTrim "hi"⟩,
           ⟨"a", .assistant, assistantText (.okRows "ans" "q" ["r0"])⟩] ∧
    (send ⟨[], "", false⟩ "hi" "u" "a" (.okRows "ans" "q" ["r0"])).busy = false := by
  refine ⟨by decide, ?_, ?_⟩
  · exact (chat_submit_turn ⟨[], "", false⟩ "hi" "u" "a"
      (.okRows "ans" "q" ["r0"]) (by decide)).2.2.1
  · exact (chat_submit_turn ⟨[], "", false⟩ "hi" "u" "a"
      (.okRows "ans" "q" ["r0"]) (by decide)).2.2.2

/-- C8: a submission whose trimmed text is empty, or made while the
controller is busy, changes nothing and issues no request. -/
theorem chat_submit_noop (s : ChatState) (text uid aid : String)
    (out : ChatOutcome) (h : jsTrim text = "" ∨ s.busy = true) :
    send s text uid aid out = s ∧ sendRequests s text = [] := by
  have hacc : sendAccepts s text = false := by
    rcases h with h | h <;> simp [sendAccepts, h]
  simp [send, sendRequests, hacc]

/-- Witness for `chat_submit_noop`: whitespace-only input is dropped. -/
theorem chat_submit_noop_witness :
    (jsTrim "   " = "" ∨ (⟨[], "", false⟩ : ChatState).busy = true) ∧
    send ⟨[], "", false⟩ "   " "u" "a" (.okRows "ans" "q" []) = ⟨[], "", false⟩ ∧
    sendRequests ⟨[], "", false⟩ "   " = [] := by
  refine ⟨Or.inl (by decide), ?_, ?_⟩
  · exact (chat_submit_noop ⟨[], "", false⟩ "   " "u" "a"
      (.okRows "ans" "q" []) (Or.inl (by decide))).1
  · exact (chat_submit_noop ⟨[], "", false⟩ "   " "u" "a"
      (.okRows "ans" "q" []) (Or.inl (by decide))).2

/-- C5: a chat submission resolving with a structured error envelope yields
an assistant message that is exactly the warning marker, the backend
message, the newline-joined issue list when one is present, and — after the
fixed SQL label — the attempted query text exactly when one was supplied;
the template carries no row excerpt (checked on the scenario values). -/
theorem chat_structured_error_message (m : String) (issues : List String)
    (sqlq : String) (hm : m ≠ "")
    (hi : String.intercalate "\n" issues ≠ "") :
    assistantText (.structuredError (some m) (some issues) (some sqlq))
        = "⚠️ " ++ m ++ "\n" ++ String.intercalate "\n" issues
            ++ "\n\nSQL:\n" ++ sqlq ∧
    assistantText (.structuredError (some m) (some issues) none)
        = "⚠️ " ++ m ++ "\n" ++ String.intercalate "\n" issues
            ++ "\n\nSQL:\n" ∧
    assistantText (.structuredError (some m) none (some sqlq))
        = "⚠️ " ++ m ++ "\n\nSQL:\n" ++ sqlq ∧
    strContainsSub
      (assistantText (.structuredError (some "unknown table")
        (some ["table X not allowed"]) none)) "First row:" = false := by
  refine ⟨?_, ?_, ?_, by decide⟩ <;>
    simp [assistantText, jsOrElse, hm, hi, String.append_assoc]

/-- Witness for `chat_structured_error_message` at the scenario values. -/
theorem chat_structured_error_message_witness :
    assistantText (.structuredError (some "unknown table")
        (some ["table X not allowed"]) (some "SELECT 1"))
      = "⚠️ " ++ "unknown table" ++ "\n"
          ++ String.intercalate "\n" ["table X not allowed"]
          ++ "\n\nSQL:\n" ++ "SELECT 1" ∧
    assistantText (.structuredError (some "unknown table")
        (some ["table X not allowed"]) none)
      = "⚠️ " ++ "unknown table" ++ "\n"
          ++ String.intercalate "\n" ["table X not allowed"] ++ "\n\nSQL:\n" := by
  refine ⟨?_, ?_⟩
  · exact (chat_structured_error_message "unknown table" ["table X not allowed"]
      "SELECT 1" (by decide) (by decide)).1
  · exact (chat_structured_error_message "unknown table" ["table X not allowed"]
      "SELECT 1" (by decide) (by decide)).2.1

/-- C4: any failed search load (non-success status, undecodable payload or
network failure all reach the same catch branch) leaves the controller with
an empty row list and a zero total, whatever page was displayed before; the
term and page cells are untouched. -/
theorem search_failure_clears_page (s : SearchState) :
    (applyLoad s .failure).data = [] ∧
    (applyLoad s .failure).total = 0 ∧
    (applyLoad s .failure).q = s.q ∧
    (applyLoad s .failure).page = s.page := by
  simp [applyLoad]

/-- C3: a failed report load keeps the previous `Report` snapshot — hence
its summary, timeseries and sql fields — exactly as it was and only sets the
error cell; in particular a failed reload right after a successful load for
the same customer still holds the prior report. -/
theorem report_failure_preserves_snapshot (s : ReportState) (r : Report)
    (dm : Option String) (raw m : String) :
    (loadReport s (.httpError dm raw)).report = s.report ∧
    (loadReport s (.netFail m)).report = s.report ∧
    (loadReport s (.netFail m)).lastError
        = some (jsOrElse (some m) "Request failed") ∧
    (loadReport s (.httpError dm raw)).lastError
        = some (jsOrElse (some (jsOrElse dm raw)) "Request failed") ∧
    (loadReport (loadReport s (.ok r)) (.netFail m)).report = some r ∧
    ((loadReport (loadReport s (.ok r)) (.netFail m)).report.map
        Report.summary) = some r.summary ∧
    ((loadReport (loadReport s (.ok r)) (.netFail m)).report.map
        Report.timeseries) = some r.timeseries ∧
    ((loadReport (loadReport s (.ok r)) (.netFail m)).report.map
        Report.sql) = some r.sql := by
  simp [loadReport, callResult, finalError, thrownMessage]

/-- C9: every transport-client call — `get` or `post`, on success,
non-success status, network failure or decode failure — performs exactly the
transition `busy=true` then `busy=false` (its trace holds exactly those two
`setLoading` events, in that order), clears the error cell right at the
start, and leaves the loading flag false from any prior hook state. -/
theorem api_call_busy_discipline (T : Type) (out : FetchOutcome T)
    (st : ApiState) :
    loadingEvents (postTrace out) = [true, false] ∧
    loadingEvents (getTrace out) = [true, false] ∧
    (postTrace out).take 2 = [.setLoading true, .setError none] ∧
    (getTrace out).take 2 = [.setLoading true, .setError none] ∧
    (runTrace st (postTrace out)).loading = false ∧
    (runTrace st (getTrace out)).loading = false := by
  cases out <;>
    simp [postTrace, getTrace, catchEvents, loadingEvents, runTrace,
      applyEvent]

/-- C10: the currency formatter is a total function. It returns the em-dash
placeholder on null, undefined and the empty string; returns a non-parsing
string input unchanged; and on every numeric value returns the locale
formatting when it succeeds and `String(val)` when it throws, with NaN
printed via `String`. The statement holds for every behavior of the
JavaScript `Number`, `Intl` and `String` primitives. -/
theorem fmtCurrency_total_behavior (numberParse : String → JsNum)
    (intlFormat : JsNum → Option String) (strOfNum : JsNum → String) :
    fmtCurrency numberParse intlFormat strOfNum .nullv = "—" ∧
    fmtCurrency numberParse intlFormat strOfNum .undef = "—" ∧
    fmtCurrency numberParse intlFormat strOfNum (.str "") = "—" ∧
    (∀ s, s ≠ "" → numberParse s = .nan →
      fmtCurrency numberParse intlFormat strOfNum (.str s) = s) ∧
    (∀ x t, intlFormat (.val x) = some t →
      fmtCurrency numberParse intlFormat strOfNum (.num (.val x)) = t) ∧
    (∀ x, intlFormat (.val x) = none →
      fmtCurrency numberParse intlFormat strOfNum (.num (.val x))
          = strOfNum (.val x)) ∧
    fmtCurrency numberParse intlFormat strOfNum (.num .nan) = strOfNum .nan ∧
    (∀ s x, s ≠ "" → numberParse s = .val x →
      fmtCurrency numberParse intlFormat strOfNum (.str s)
          = (intlFormat (.val x)).getD (strOfNum (.val x))) := by
  refine ⟨rfl, rfl, rfl, ?_, ?_, ?_, rfl, ?_⟩
  · intro s hs hp
    simp [fmtCurrency, hs, hp]
  · intro x t ht
    simp [fmtCurrency, ht]
  · intro x ht
    simp [fmtCurrency, ht]
  · intro s x hs hp
    simp [fmtCurrency, hs, hp]

/-- Witness for `fmtCurrency_total_behavior` with concrete primitives. -/
theorem fmtCurrency_total_behavior_witness :
    fmtCurrency (fun _ => .nan) (fun _ => some "$12.00") (fun _ => "NaN")
        .nullv = "—" ∧
    fmtCurrency (fun _ => .nan) (fun _ => some "$12.00") (fun _ => "NaN")
        (.str "abc") = "abc" ∧
    fmtCurrency (fun _ => .val 12) (fun _ => some "$12.00") (fun _ => "12")
        (.num (.val 12)) = "$12.00" ∧
    fmtCurrency (fun _ => .val 12) (fun _ => none) (fun _ => "12")
        (.num (.val 12)) = "12" := by
  refine ⟨?_, ?_, ?_, ?_⟩
  · exact (fmtCurrency_total_behavior (fun _ => .nan)
      (fun _ => some "$12.00") (fun _ => "NaN")).1
  · exact (fmtCurrency_total_behavior (fun _ => .nan)
      (fun _ => some "$12.00") (fun _ => "NaN")).2.2.2.1 "abc" (by decide) rfl
  · exact (fmtCurrency_total_behavior (fun _ => .val 12)
      (fun _ => some "$12.00") (fun _ => "12")).2.2.2.2.1 12 "$12.00" rfl
  · exact (fmtCurrency_total_behavior (fun _ => .val 12)
      (fun _ => none) (fun _ => "12")).2.2.2.2.2.1 12 rfl

/-- C6 counterexample: when the fetch throws `TypeError: Failed to fetch`,
the chat controller renders the exception text itself after the warning
marker — not the generic network-failure message — and the transport client
stores the same exception text in its user-visible error cell. -/
theorem chat_network_error_exposes_exception :
    assistantText (.networkFail (some "Failed to fetch"))
        = "⚠️ Failed to fetch" ∧
    strContainsSub (assistantText (.networkFail (some "Failed to fetch")))
        "Failed to fetch" = true ∧
    assistantText (.networkFail (some "Failed to fetch"))
        ≠ "⚠️ Network error" ∧
    finalError (FetchOutcome.netFail "Failed to fetch" : FetchOutcome Unit)
        = some "Failed to fetch" := by
  refine ⟨by decide, by decide, by decide, rfl⟩

/-- C6 amended: on a transport failure the user-facing text is the warning
marker followed by the thrown exception message whenever that message is
non-empty; the generic fallbacks — "Network error" in the chat controller,
"Request failed" in the transport client error cell — are used only when
the exception message is empty or absent. -/
theorem chat_network_error_message_policy (T : Type) (m : String)
    (hm : m ≠ "") :
    assistantText (.networkFail (some m)) = "⚠️ " ++ m ∧
    assistantText (.networkFail none) = "⚠️ Network error" ∧
    assistantText (.networkFail (some "")) = "⚠️ Network error" ∧
    finalError (FetchOutcome.netFail m : FetchOutcome T) = some m ∧
    finalError (FetchOutcome.netFail "" : FetchOutcome T)
        = some "Request failed" := by
  refine ⟨?_, rfl, rfl, ?_, rfl⟩
  · simp [assistantText, jsOrElse, hm]
  · simp [finalError, thrownMessage, jsOrElse, hm]

/-- Witness for `chat_network_error_message_policy` at a concrete exception
message. -/
theorem chat_network_error_message_policy_witness :
    assistantText (.networkFail (some "Failed to fetch"))
        = "⚠️ " ++ "Failed to fetch" ∧
    assistantText (.networkFail none) = "⚠️ Network error" ∧
    finalError (FetchOutcome.netFail "Failed to fetch" : FetchOutcome Unit)
        = some "Failed to fetch" := by
  refine ⟨?_, ?_, ?_⟩
  · exact (chat_network_error_message_policy Unit "Failed to fetch"
      (by decide)).1
  · exact (chat_network_error_message_policy Unit "Failed to fetch"
      (by decide)).2.1
  · exact (chat_network_error_message_policy Unit "Failed to fetch"
      (by decide)).2.2.2.1

theorem applyLoad_page (s : SearchState) (o : LoadOutcome) :
    (applyLoad s o).page = s.page := by
  cases o <;> rfl

theorem sreachable_page_nonneg {s : SearchState} (h : SReachable s) :
    0 ≤ s.page := by
  induction h with
  | init => decide
  | step _ st ih =>
      cases st <;> simp_all [applyLoad_page, prevTarget] <;> omega

/-- C2 counterexample: the state with page index 1 and total 0 is reachable
(a successful load reports 100 rows, the user moves to the second page, and
the load triggered by that navigation fails, which resets the total to 0
while leaving the page index untouched), yet its page index is not below its
page count. -/
theorem pagination_bound_not_invariant :
    SReachable ⟨"", 1, [], 0⟩ ∧
    ¬ ((1 : Int) < pages 0) := by
  constructor
  · have h1 : SReachable searchInit := .init
    have h2 : SReachable ⟨"", 0, [⟨30310, "shirt", 5⟩], 100⟩ :=
      h1.step (SStep.loadResolves searchInit
        (.success [⟨30310, "shirt", 5⟩] (some 100)))
    exact h2.step (SStep.next ⟨"", 0, [⟨30310, "shirt", 5⟩], 100⟩
      .failure (by decide))
  · decide

/-- C2 amended: the page count is `max(1, ceil(totalCount/25))`; the page
index is nonnegative in every reachable state; an enabled previous step
stays nonnegative and strictly decreases the index, and an enabled next
step stays below the page count derived from the pre-navigation total — but
`pageIndex < pageCount` is not an invariant of every reachable state, since
a failed load resets the total (hence the page count) without resetting the
page index (see `pagination_bound_not_invariant`). -/
theorem pagination_navigation_bounds :
    (∀ t : Int, pages t = max 1 ⌈(t : ℚ) / 25⌉) ∧
    (∀ t : Int, 0 ≤ t →
      t ≤ 25 * pages t ∧ 25 * (pages t - 1) < max t 1) ∧
    (∀ s : SearchState, SReachable s → 0 ≤ s.page) ∧
    (∀ s : SearchState, nextEnabled s = true →
      s.page + 1 < pages s.total) ∧
    (∀ s : SearchState, prevEnabled s = true →
      0 ≤ prevTarget s ∧ prevTarget s < s.page) ∧
    (∀ s : SearchState, 0 ≤ prevTarget s) := by
  refine ⟨?_, ?_, ?_, ?_, ?_, ?_⟩
  · intro t
    rw [ceilDiv25_eq]
    rfl
  · intro t ht
    simp only [pages, ceilDiv25]
    constructor <;> omega
  · intro s h
    exact sreachable_page_nonneg h
  · intro s h
    simp only [nextEnabled, Bool.not_eq_true', decide_eq_false_iff_not,
      not_le] at h
    exact h
  · intro s h
    simp only [prevEnabled, Bool.not_eq_true', decide_eq_false_iff_not,
      not_le] at h
    simp only [prevTarget]
    omega
  · intro s
    simp [prevTarget]

/-- Witness for `pagination_navigation_bounds` at concrete states. -/
theorem pagination_navigation_bounds_witness :
    pages 100 = max 1 ⌈(100 : ℚ) / 25⌉ ∧
    (100 ≤ 25 * pages 100 ∧ 25 * (pages 100 - 1) < max 100 1) ∧
    0 ≤ searchInit.page ∧
    (0 : Int) + 1 < pages 100 ∧
    (0 ≤ prevTarget ⟨"", 3, [], 100⟩ ∧ prevTarget ⟨"", 3, [], 100⟩ < 3) := by
  refine ⟨?_, ?_, ?_, ?_, ?_⟩
  · exact pagination_navigation_bounds.1 100
  · exact pagination_navigation_bounds.2.1 100 (by decide)
  · exact pagination_navigation_bounds.2.2.1 searchInit SReachable.init
  · exact pagination_navigation_bounds.2.2.2.1 ⟨"", 0, [], 100⟩ (by decide)
  · exact pagination_navigation_bounds.2.2.2.2.1 ⟨"", 3, [], 100⟩ (by decide)

/-- C7 evaluation: a press of the search button while page 3 is displayed
issues two read requests — first the immediate one whose `load` closure
still holds the pre-reset page index (offset 75), then the one fired by the
page-change effect with offset 0. Only from page 0 does the press issue
exactly one request with offset 0; and a term of whitespace is omitted from
the query entirely. -/
theorem search_press_requests_eval :
    searchPressRequests ⟨"shirt", 3, [], 100⟩ =
      [[("limit", "25"), ("offset", "75"), ("q", "shirt")],
       [("limit", "25"), ("offset", "0"), ("q", "shirt")]] ∧
    searchPressRequests ⟨" shirt ", 0, [], 0⟩ =
      [[("limit", "25"), ("offset", "0"), ("q", "shirt")]] ∧
    searchPressRequests ⟨"  ", 0, [], 0⟩ =
      [[("limit", "25"), ("offset", "0")]] := by
  refine ⟨by decide, by decide, by decide⟩
